import Mathlib

/-!
Verification development for the ccc-voice-agent backend.

The definitions below are a shallow embedding of the TypeScript sources:

* `src/services/dataExtraction.ts` — the `DataExtractionService` class:
  `buildExtractionPrompt`, `extractData` (with its catch-all error branch)
  and `extractDataBatch` (the chunk-of-3 bounded-concurrency loop with a
  1000 ms pacing delay between chunks).
* `src/routes/extraction.ts` (the test-mode variant) — zod request
  validation (`batchExtractionSchema`), the `POST /batch` handler and the
  static field catalogue served by `GET /schemas`.
* `src/routes/auth.ts` — the in-memory user store and `POST /register`.
* `src/routes/transcription.ts` — the multer mime/size gate and the
  upload handler's error-to-status mapping.
* `src/index.ts` — the rate-limit configuration; the window algorithm of
  the `express-rate-limit` dependency is modelled from the spec.

Remote provider behaviour (the OpenAI chat call, `JSON.parse` of its
output, token usage, wall-clock time) is abstracted into a `ProviderEnv`
record of inputs; JavaScript truthiness of the parsed JSON values is
modelled explicitly so that `x || default` keeps its JS meaning.
-/

/-- JSON values as produced by `JSON.parse` on the provider output,
restricted to the scalar shapes the service inspects. -/
inductive Json where
  | str (s : String)
  | num (q : ℚ)
  | bool (b : Bool)
  | null
  deriving DecidableEq, Repr

/-- JavaScript truthiness of a `Json` value (`0`, `""`, `false`, `null`
are falsy). -/
def Json.truthy : Json → Bool
  | .str s => s ≠ ""
  | .num q => q ≠ 0
  | .bool b => b
  | .null => false

/-- JavaScript `x || d` for an optionally-present property `x`
(an absent property reads as `undefined`, which is falsy). -/
def jsOr (x : Option Json) (d : Json) : Json :=
  match x with
  | some v => if v.truthy then v else d
  | none => d

/-- A parsed JSON object: the flat key→value mapping the service works
with. -/
abbrev JsonObj := List (String × Json)

/-- Property read `obj.key`. -/
def JsonObj.get (o : JsonObj) (key : String) : Option Json :=
  (o.find? (fun p => p.1 == key)).map (·.2)

/-- Extraction types (`ExtractionType` union in `dataExtraction.ts`,
together with the `damage_assessment` value the extraction router's zod
enum additionally admits; the service's prompt switch has no case for it
and sends it to the `default:` throw). -/
inductive ExtractionType where
  | repair_details
  | parts_inventory
  | labor_hours
  | customer_info
  | damage_assessment
  | custom
  deriving DecidableEq, Repr

/-- String form of an extraction type, as it appears in request bodies
and in the `Unsupported extraction type` message. -/
def ExtractionType.toStr : ExtractionType → String
  | .repair_details => "repair_details"
  | .parts_inventory => "parts_inventory"
  | .labor_hours => "labor_hours"
  | .customer_info => "customer_info"
  | .damage_assessment => "damage_assessment"
  | .custom => "custom"

/-- `CustomSchema` interface. -/
structure CustomSchema where
  fields : List String
  description : String
  deriving DecidableEq, Repr

/-- `ExtractionRequest` interface. -/
structure ExtractionRequest where
  transcription : String
  extractionType : ExtractionType
  customSchema : Option CustomSchema
  userId : String
  deriving DecidableEq, Repr

/-- Token usage reported by the provider (`completion.usage`). -/
structure Usage where
  prompt : Nat
  completion : Nat
  total : Nat
  deriving DecidableEq, Repr

/-- `ExtractionResult` interface.  `confidence` is kept as a `Json`
value because the source assigns `extractedData.confidence || 0.8`
without coercing it. -/
structure ExtractionResult where
  success : Bool
  extractedData : JsonObj
  confidence : Json
  extractionType : ExtractionType
  processingTime : Nat
  tokens : Option Usage
  deriving DecidableEq, Repr

/-- One element of `extractDataBatch`'s result array
(`BatchExtractionResult` interface). -/
structure BatchEntry where
  id : String
  result : ExtractionResult
  error : Option String
  deriving DecidableEq, Repr

/-- One item of a batch request (`{ id: string; text: string }`). -/
structure BatchItem where
  id : String
  text : String
  deriving DecidableEq, Repr

/-- `BatchExtractionRequest` interface. -/
structure BatchExtractionRequest where
  transcriptions : List BatchItem
  extractionType : ExtractionType
  customSchema : Option CustomSchema
  userId : String

/-- Abstraction of one remote round-trip: what
`openai.chat.completions.create` and the subsequent `JSON.parse` do for
a given request.  `call` is either a thrown error message or the
optional `choices[0]?.message?.content`; `parse` is `JSON.parse`
(success or thrown `SyntaxError` message); `usage` is
`completion.usage`; `elapsedMs` is the observed `Date.now()` delta. -/
structure ProviderEnv where
  call : Except String (Option String)
  parse : String → Except String JsonObj
  usage : Option Usage
  elapsedMs : Nat

/-- Observable effects of the service: a remote chat-completion call
carrying its prompt, or the `setTimeout(…, ms)` pacing delay of the
batch loop. -/
inductive Ev where
  | remoteCall (prompt : String)
  | pacingDelay (ms : Nat)
  deriving DecidableEq, Repr

/-- `buildExtractionPrompt` — the private prompt builder.  Returns
`.error` where the source throws. -/
def buildExtractionPrompt (transcription : String) (extractionType : ExtractionType)
    (customSchema : Option CustomSchema) : Except String String :=
  let basePrompt :=
    "Extract structured data from the following automotive repair transcription. Return your response as a valid JSON object.\n\nTranscription:\n\"" ++
    transcription ++ "\"\n\n"
  match extractionType with
  | .repair_details => .ok (basePrompt ++
      "Extract the following repair details:\n- vehicle_info: Year, make, model, VIN if mentioned\n- problem_description: What the customer reported as the issue\n- diagnosis: What the technician found during inspection\n- repairs_performed: Specific repair work done\n- parts_used: Parts replaced or installed\n- labor_time: Time spent on different tasks\n- recommendations: Future maintenance suggestions\n\nFormat your response as JSON with these exact field names. Include a \"confidence\" field (0.0-1.0) indicating your confidence in the extraction.")
  | .parts_inventory => .ok (basePrompt ++
      "Extract parts and inventory information:\n- part_numbers: Specific part numbers mentioned\n- part_descriptions: Description of parts used\n- quantities: How many of each part\n- suppliers: Where parts were sourced from\n- costs: Part costs if mentioned\n- installation_notes: Any special installation requirements\n\nFormat your response as JSON with these exact field names. Include a \"confidence\" field (0.0-1.0).")
  | .labor_hours => .ok (basePrompt ++
      "Extract labor and time information:\n- tasks_performed: List of specific tasks done\n- time_per_task: Time spent on each task\n- total_hours: Total labor time\n- technician_notes: Any notes about the work performed\n- difficulty_level: How complex the work was (easy/medium/hard)\n\nFormat your response as JSON with these exact field names. Include a \"confidence\" field (0.0-1.0).")
  | .customer_info => .ok (basePrompt ++
      "Extract customer and vehicle information:\n- customer_name: Customer\x27s name if mentioned\n- contact_info: Phone, email, or address if mentioned\n- vehicle_year: Year of the vehicle\n- vehicle_make: Make/brand of the vehicle\n- vehicle_model: Model of the vehicle\n- vin: VIN number if mentioned\n- mileage: Current mileage if mentioned\n- service_requests: What services were requested\n\nFormat your response as JSON with these exact field names. Include a \"confidence\" field (0.0-1.0).")
  | .custom =>
    match customSchema with
    | none => .error "Custom schema is required for custom extraction type"
    | some schema => .ok (basePrompt ++
        "Extract the following custom fields based on this schema:\nDescription: " ++
        schema.description ++ "\nFields to extract: " ++
        String.intercalate ", " schema.fields ++
        "\n\nFormat your response as JSON using the field names provided. Include a \"confidence\" field (0.0-1.0).")
  | other => .error ("Unsupported extraction type: " ++ other.toStr)

/-- The result `extractData` builds in its `catch` branch: success
`false`, the error message embedded in `extractedData`, confidence `0`,
the request's extraction type echoed, no token usage. -/
def catchResult (req : ExtractionRequest) (msg : String) (pt : Nat) : ExtractionResult :=
  { success := false
    extractedData := [("error", Json.str msg)]
    confidence := Json.num 0
    extractionType := req.extractionType
    processingTime := pt
    tokens := none }

/-- `extractData`, with its trace of remote calls.  The whole body sits
in a `try`/`catch` whose `catch` returns `catchResult`; a remote call
happens exactly when the prompt was built, and the success branch
defaults a falsy `confidence` to `0.8` via `||` and reads token counts
with `usage?.field || 0`. -/
def extractData (req : ExtractionRequest) (env : ProviderEnv) :
    ExtractionResult × List Ev :=
  match buildExtractionPrompt req.transcription req.extractionType req.customSchema with
  | .error msg => (catchResult req msg env.elapsedMs, [])
  | .ok prompt =>
    match env.call with
    | .error msg => (catchResult req msg env.elapsedMs, [.remoteCall prompt])
    | .ok none =>
        (catchResult req "No response from extraction model" env.elapsedMs,
         [.remoteCall prompt])
    | .ok (some content) =>
      match env.parse content with
      | .error msg => (catchResult req msg env.elapsedMs, [.remoteCall prompt])
      | .ok extractedData =>
          ({ success := true
             extractedData := extractedData
             confidence := jsOr (extractedData.get "confidence") (Json.num (4/5))
             extractionType := req.extractionType
             processingTime := env.elapsedMs
             tokens := some
               { prompt := match env.usage with | some u => u.prompt | none => 0
                 completion := match env.usage with | some u => u.completion | none => 0
                 total := match env.usage with | some u => u.total | none => 0 } },
           [.remoteCall prompt])

/-- The body of `batch.map(async (item) => …)` in `extractDataBatch`:
run `extractData` on one item; `extractData` returns in both its `try`
and `catch` branches, so the surrounding per-item `catch` never fires
and the optional `error` field stays absent. -/
def batchItemRun (req : BatchExtractionRequest) (envf : String → ProviderEnv)
    (item : BatchItem) : BatchEntry × List Ev :=
  let r := extractData
    { transcription := item.text
      extractionType := req.extractionType
      customSchema := req.customSchema
      userId := req.userId } (envf item.id)
  ({ id := item.id, result := r.1, error := none }, r.2)

/-- One chunk of `extractDataBatch`: dispatch `Promise.all` over the
chunk's items; the result array of `Promise.all` is in dispatch order
regardless of completion order. -/
def runChunk (req : BatchExtractionRequest) (envf : String → ProviderEnv)
    (batch : List BatchItem) : List BatchEntry × List Ev :=
  let runs := batch.map (batchItemRun req envf)
  (runs.map Prod.fst, (runs.map Prod.snd).flatten)

/-- The chunk loop of `extractDataBatch` (`maxConcurrent = 3`): at
position `i` it takes `slice(i, i + 3)` — i.e. up to three leading
items — awaits the chunk, appends its results, and sleeps 1000 ms iff
`i + 3 < length`, i.e. iff items remain after the chunk. -/
def extractBatchLoop (req : BatchExtractionRequest) (envf : String → ProviderEnv) :
    List BatchItem → List BatchEntry × List Ev
  | [] => ([], [])
  | [a] => runChunk req envf [a]
  | [a, b] => runChunk req envf [a, b]
  | [a, b, c] => runChunk req envf [a, b, c]
  | a :: b :: c :: rest =>
    let chunk := runChunk req envf [a, b, c]
    let r := extractBatchLoop req envf rest
    (chunk.1 ++ r.1, chunk.2 ++ Ev.pacingDelay 1000 :: r.2)

/-- `extractDataBatch`: run the chunk loop over the request's
transcriptions. -/
def extractDataBatch (req : BatchExtractionRequest) (envf : String → ProviderEnv) :
    List BatchEntry × List Ev :=
  extractBatchLoop req envf req.transcriptions

/-- Consecutive chunks of three, exactly as the loop slices its input:
`slice(0,3)`, `slice(3,6)`, … (the last chunk may be shorter). -/
def chunks3 {α : Type} : List α → List (List α)
  | [] => []
  | [a] => [[a]]
  | [a, b] => [[a, b]]
  | a :: b :: c :: rest => [a, b, c] :: chunks3 rest

/-- Interleave the per-chunk traces with one 1000 ms pacing delay
between consecutive chunks (none after the last). -/
def joinWithDelay : List (List Ev) → List Ev
  | [] => []
  | [c] => c
  | c :: c' :: cs => c ++ Ev.pacingDelay 1000 :: joinWithDelay (c' :: cs)

/-! ### Extraction router (`src/routes/extraction.ts`, test-mode variant) -/

/-- The `categories` object of the `comprehensive` schema served by
`GET /api/extraction/schemas`, as listed in the handler. -/
def comprehensiveCategories : List (String × List String) :=
  [("customer_information",
     ["customer_name", "contact_info", "service_requests"]),
   ("vehicle_information",
     ["vin", "vehicle_type", "type", "year", "make", "model", "body_style",
      "engine", "interior_color", "exterior_color", "paint_code", "trim_code",
      "license_plate", "license_state", "license_expiration", "job_number",
      "production_date", "mileage_in", "mileage_out", "fuel_level"]),
   ("damage_assessment",
     ["repairable_condition", "primary_impact", "secondary_impact",
      "drivable_status", "impact_notes", "prior_damage_notes",
      "problem_description", "diagnosis"]),
   ("repair_work",
     ["repairs_performed", "labor_type", "tasks_performed", "time_per_task",
      "total_hours", "labor_time", "difficulty_level", "technician_notes"]),
   ("parts_operations",
     ["parts_used", "part_numbers", "part_descriptions", "quantities",
      "suppliers", "costs", "installation_notes", "paint_needed",
      "operation_notes", "estimate_line", "operation_type",
      "operation_description", "quantity", "unit_price", "estimated_total"]),
   ("recommendations",
     ["recommendations"])]

/-- The hard-coded `total_fields` attribute of the `comprehensive`
schema in the same handler. -/
def comprehensiveTotalFields : Nat := 47

/-- The number of field names actually listed under the comprehensive
categories. -/
def comprehensiveListedFieldCount : Nat :=
  (comprehensiveCategories.map (fun c => c.2.length)).sum

/-- The string values accepted by the router's zod
`z.enum([...])` for `extractionType`. -/
def extractionTypeEnumValues : List String :=
  ["repair_details", "parts_inventory", "labor_hours", "customer_info",
   "damage_assessment", "custom"]

/-- Decode an `extractionType` request-body string to the enum value. -/
def ExtractionType.ofStr (s : String) : Option ExtractionType :=
  if s = "repair_details" then some .repair_details
  else if s = "parts_inventory" then some .parts_inventory
  else if s = "labor_hours" then some .labor_hours
  else if s = "customer_info" then some .customer_info
  else if s = "damage_assessment" then some .damage_assessment
  else if s = "custom" then some .custom
  else none

/-- A `POST /api/extraction/batch` request body before validation
(fields already shaped; `extractionType` absent means the zod
`.default('repair_details')` applies). -/
structure BatchBody where
  transcriptions : List BatchItem
  extractionType : Option String
  customSchema : Option CustomSchema

/-- `batchExtractionSchema.parse`: every item needs `text` of length at
least 10, the array length must be in `[1, 10]`, and `extractionType`
(when present) must belong to the enum; failure raises a `ZodError`. -/
def parseBatchBody (b : BatchBody) :
    Except String (List BatchItem × ExtractionType × Option CustomSchema) :=
  if b.transcriptions.all (fun it => 10 ≤ it.text.length)
      ∧ 1 ≤ b.transcriptions.length ∧ b.transcriptions.length ≤ 10 then
    match b.extractionType with
    | none => .ok (b.transcriptions, .repair_details, b.customSchema)
    | some s =>
      match ExtractionType.ofStr s with
      | some ty => .ok (b.transcriptions, ty, b.customSchema)
      | none => .error "Invalid batch extraction request"
  else .error "Invalid batch extraction request"

/-- Response of the `POST /batch` handler: HTTP status, the result
entries (empty on rejection), the emitted extraction events, and
whether `extractDataBatch` was invoked at all. -/
structure BatchResponse where
  status : Nat
  results : List BatchEntry
  events : List Ev
  dispatched : Bool
  deriving Repr

/-- The `POST /api/extraction/batch` handler: zod validation first (a
`ZodError` maps to HTTP 400 in the `catch`), then `extractDataBatch`
and a 200 response. -/
def handleBatch (envf : String → ProviderEnv) (userId : String)
    (b : BatchBody) : BatchResponse :=
  match parseBatchBody b with
  | .error _ => { status := 400, results := [], events := [], dispatched := false }
  | .ok (items, ty, cs) =>
    let r := extractDataBatch
      { transcriptions := items, extractionType := ty,
        customSchema := cs, userId := userId } envf
    { status := 200, results := r.1, events := r.2, dispatched := true }

/-! ### Auth routes (`src/routes/auth.ts`) -/

/-- The in-memory `User` record (the stored `password` is the bcrypt
hash). -/
structure User where
  id : String
  email : String
  password : String
  name : String
  createdAt : Nat
  deriving DecidableEq, Repr

/-- A `POST /api/auth/register` body. -/
structure RegisterInput where
  email : String
  password : String
  name : String
  deriving DecidableEq, Repr

/-- `registerSchema.parse`: zod's `email()` format check is the
library's own predicate, taken as the parameter `isEmail`; the password
needs at least 8 characters and the name at least 2. -/
def registerValid (isEmail : String → Bool) (inp : RegisterInput) : Bool :=
  isEmail inp.email && 8 ≤ inp.password.length && 2 ≤ inp.name.length

/-- Outcome of the register handler, by HTTP status. -/
inductive RegisterOutcome where
  | validationFailed            -- 400, ZodError
  | duplicateUser               -- 400, "User with this email already exists"
  | created (token : String)    -- 201
  | serverError                 -- 500 (e.g. JWT_SECRET missing)
  deriving DecidableEq, Repr

/-- External effects the register handler uses: zod's email validator,
`bcrypt.hash(…, 12)`, the generated `user_${Date.now()}_${random}` id,
`jwt.sign` under the optional `JWT_SECRET`, and the clock. -/
structure AuthEnv where
  isEmail : String → Bool
  hash : String → String
  freshId : String
  jwtSecret : Option (String → String)
  now : Nat

/-- The `POST /api/auth/register` handler over the `users` array:
validate, reject a duplicate email (`users.find(u => u.email === …)`,
case-sensitive) with 400, otherwise push the new user and sign a token
(a missing `JWT_SECRET` throws after the push, mapping to 500). -/
def register (env : AuthEnv) (users : List User) (inp : RegisterInput) :
    RegisterOutcome × List User :=
  if registerValid env.isEmail inp then
    match users.find? (fun u => u.email == inp.email) with
    | some _ => (.duplicateUser, users)
    | none =>
      let newUser : User :=
        { id := env.freshId
          email := inp.email
          password := env.hash inp.password
          name := inp.name
          createdAt := env.now }
      let users := users ++ [newUser]
      match env.jwtSecret with
      | none => (.serverError, users)
      | some sign => (.created (sign newUser.id), users)
  else (.validationFailed, users)

/-- Email uniqueness across the user store. -/
def uniqueEmails (users : List User) : Prop :=
  users.Pairwise (fun u v => u.email ≠ v.email)

/-! ### Transcription upload route (`src/routes/transcription.ts`) -/

/-- The multer `fileFilter` allow-list. -/
def allowedMimeTypes : List String :=
  ["audio/mpeg", "audio/wav", "audio/mp3", "audio/mp4", "audio/m4a",
   "audio/webm", "audio/flac"]

/-- `parseInt(process.env.MAX_FILE_SIZE || '50000000')`: the configured
upload ceiling, 50 MB by default. -/
def maxFileSize (envMax : Option Nat) : Nat := envMax.getD 50000000

/-- The multer stage: `fileFilter` rejects a mime type outside the
allow-list with `Invalid file type. Only audio files are allowed.`;
the `limits.fileSize` setting makes multer reject an oversized body
with its `File too large` error.  Returns the error message if the
upload is refused. -/
def multerCheck (mime : String) (size : Nat) (limit : Nat) : Option String :=
  if ¬ allowedMimeTypes.contains mime then
    some "Invalid file type. Only audio files are allowed."
  else if limit < size then some "File too large"
  else none

/-- Boolean substring test used to model the handler's
`error.message.includes(…)` checks. -/
def containsSub (needle hay : String) : Bool :=
  decide (needle.toList <:+: hay.toList)

/-- The upload handler's error mapping: messages containing
`file type` or `File too large` map to HTTP 400, anything else to 500. -/
def uploadErrorStatus (msg : String) : Nat :=
  if containsSub "file type" msg then 400
  else if containsSub "File too large" msg then 400
  else 500

/-- `POST /api/transcription/upload` for a request carrying one audio
file: the multer gate runs before the handler body; on rejection the
error is mapped to a status and no transcription is attempted, on
acceptance the handler proceeds to the remote `transcribe` call.
Returns the HTTP-error status (if any) and whether the remote
transcription call was reached. -/
def handleUpload (mime : String) (size : Nat) (envMax : Option Nat) :
    Nat × Bool :=
  match multerCheck mime size (maxFileSize envMax) with
  | some msg => (uploadErrorStatus msg, false)
  | none => (200, true)

/-! ### Rate limiting (`src/index.ts`) -/

/-- `(parseInt(process.env.RATE_LIMIT_WINDOW_MINUTES || '1') || 1) * 60 * 1000`:
the window length in milliseconds (a configured `0` is falsy and falls
back to 1 minute). -/
def rateLimitWindowMs (envMinutes : Option Nat) : Nat :=
  (match envMinutes with
   | none => 1
   | some 0 => 1
   | some n => n) * 60 * 1000

/-- `parseInt(process.env.RATE_LIMIT_MAX_REQUESTS || '5') || 5`: the
per-window request budget (default 5). -/
def rateLimitMax (envMax : Option Nat) : Nat :=
  match envMax with
  | none => 5
  | some 0 => 5
  | some n => n

/-- Per-IP counter state of the limiter: the start of the current
window and the number of requests counted in it. -/
structure LimiterState where
  windowStart : Nat
  count : Nat
  deriving DecidableEq, Repr

/-- Modelled from the spec: the fixed-window algorithm of the
`express-rate-limit` middleware configured in `src/index.ts` (the
library itself is an external dependency).  A request at time `now`
first resets the counter if the window has elapsed, then increments it;
the request passes iff the incremented count is within `maxReq`,
otherwise it is answered with HTTP 429 and not processed further. -/
def limiterStep (windowMs maxReq now : Nat) (st : LimiterState) :
    Bool × LimiterState :=
  let st := if st.windowStart + windowMs ≤ now then ⟨now, 0⟩ else st
  let st : LimiterState := ⟨st.windowStart, st.count + 1⟩
  (decide (st.count ≤ maxReq), st)

/-- Run the limiter over a sequence of request arrival times from one
IP, returning each request's pass/block verdict. -/
def limiterRun (windowMs maxReq : Nat) (st : LimiterState) :
    List Nat → List Bool × LimiterState
  | [] => ([], st)
  | t :: ts =>
    let r := limiterStep windowMs maxReq t st
    let rest := limiterRun windowMs maxReq r.2 ts
    (r.1 :: rest.1, rest.2)

/-- The sizes of the consecutive chunks of an `n`-item batch: threes,
then the remainder. -/
def chunkSizes : Nat → List Nat
  | 0 => []
  | 1 => [1]
  | 2 => [2]
  | 3 => [3]
  | n + 4 => 3 :: chunkSizes (n + 1)

/-! ### Concrete data used by the witnesses -/

/-- A provider environment in which the remote call succeeds and the
output parses to a confidence of 0.9. -/
def okEnv : ProviderEnv :=
  { call := .ok (some "response body")
    parse := fun _ => .ok [("confidence", Json.num (9/10)), ("diagnosis", Json.str "worn pads")]
    usage := some { prompt := 5, completion := 7, total := 12 }
    elapsedMs := 3 }

/-- A provider environment in which the remote call throws. -/
def failEnv : ProviderEnv :=
  { call := .error "provider exploded"
    parse := fun _ => .ok []
    usage := none
    elapsedMs := 2 }

/-- A seven-item batch. -/
def sevenItems : List BatchItem :=
  [{ id := "t1", text := "alternator replaced" },
   { id := "t2", text := "brake pads worn down" },
   { id := "t3", text := "oil change performed" },
   { id := "t4", text := "coolant flush needed" },
   { id := "t5", text := "battery tested fine" },
   { id := "t6", text := "tires rotated today" },
   { id := "t7", text := "wiper blades changed" }]

/-- A seven-item batch request. -/
def sevenReq : BatchExtractionRequest :=
  { transcriptions := sevenItems
    extractionType := .repair_details
    customSchema := none
    userId := "u1" }

/-- Per-item environments where only item `t4` fails (its remote call
throws); every other item succeeds. -/
def sevenEnvf : String → ProviderEnv :=
  fun id => if id = "t4" then failEnv else okEnv

/-- The single-item extraction request the batch loop builds for item
`t4` of `sevenReq`. -/
def item4Req : ExtractionRequest :=
  { transcription := "coolant flush needed"
    extractionType := .repair_details
    customSchema := none
    userId := "u1" }

/-- An extraction request of type `custom` whose schema has an empty
field list. -/
def emptyFieldsReq : ExtractionRequest :=
  { transcription := "brake inspection completed"
    extractionType := .custom
    customSchema := some { fields := [], description := "anything wanted" }
    userId := "u1" }

/-- A plain request used for the confidence claims. -/
def confReq : ExtractionRequest :=
  { transcription := "engine light diagnostic"
    extractionType := .repair_details
    customSchema := none
    userId := "u1" }

/-- A provider environment whose parsed output carries
`confidence: 0`. -/
def confZeroEnv : ProviderEnv :=
  { call := .ok (some "zero confidence response")
    parse := fun _ => .ok [("confidence", Json.num 0)]
    usage := none
    elapsedMs := 1 }

/-- An eleven-item batch body (over the limit of 10). -/
def elevenBody : BatchBody :=
  { transcriptions :=
      [{ id := "b01", text := "alternator replaced" },
       { id := "b02", text := "brake pads worn down" },
       { id := "b03", text := "oil change performed" },
       { id := "b04", text := "coolant flush needed" },
       { id := "b05", text := "battery tested fine" },
       { id := "b06", text := "tires rotated today" },
       { id := "b07", text := "wiper blades changed" },
       { id := "b08", text := "spark plugs replaced" },
       { id := "b09", text := "air filter changed" },
       { id := "b10", text := "belts were inspected" },
       { id := "b11", text := "fuel pump serviced" }]
    extractionType := some "repair_details"
    customSchema := none }

/-- A concrete auth environment for the register witness. -/
def authEnvW : AuthEnv :=
  { isEmail := fun s => s ≠ ""
    hash := fun s => s ++ "#hashed"
    freshId := "user_1700000000000_abc123def"
    jwtSecret := some (fun uid => uid ++ ".signed")
    now := 1700000000000 }

/-- A user already present in the store. -/
def existingUser : User :=
  { id := "user_0"
    email := "ann@example.com"
    password := "oldhash"
    name := "Ann"
    createdAt := 0 }

/-- A registration attempt reusing `existingUser`'s email. -/
def dupInput : RegisterInput :=
  { email := "ann@example.com"
    password := "password1"
    name := "Ann" }

/-! ### Lemmas about the batch loop -/

/-- Per-item result of a chunk, as a plain map. -/
theorem runChunk_fst (req : BatchExtractionRequest) (envf : String → ProviderEnv)
    (c : List BatchItem) :
    (runChunk req envf c).1 = c.map (fun it => (batchItemRun req envf it).1) := by
  simp [runChunk]

/-- The batch loop's result list is the per-item map over its input:
chunking never drops, duplicates or reorders entries. -/
theorem extractBatchLoop_fst (req : BatchExtractionRequest) (envf : String → ProviderEnv) :
    ∀ items, (extractBatchLoop req envf items).1
      = items.map (fun it => (batchItemRun req envf it).1)
  | [] => rfl
  | [_] => by simp [extractBatchLoop, runChunk]
  | [_, _] => by simp [extractBatchLoop, runChunk]
  | [_, _, _] => by simp [extractBatchLoop, runChunk]
  | a :: b :: c :: d :: rest => by
    have ih := extractBatchLoop_fst req envf (d :: rest)
    simp [extractBatchLoop, runChunk, ih]

/-- The chunks cover the input exactly. -/
theorem chunks3_flatten {α : Type} :
    ∀ l : List α, (chunks3 l).flatten = l
  | [] => rfl
  | [_] => rfl
  | [_, _] => rfl
  | a :: b :: c :: rest => by
    have ih := chunks3_flatten rest
    simp [chunks3, ih]

/-- Chunk sizes depend only on the input length. -/
theorem chunks3_map_length {α : Type} :
    ∀ l : List α, (chunks3 l).map List.length = chunkSizes l.length
  | [] => rfl
  | [_] => rfl
  | [_, _] => rfl
  | a :: b :: c :: rest => by
    have ih := chunks3_map_length rest
    have h4 : (a :: b :: c :: rest).length = rest.length + 3 := by simp
    cases rest with
    | nil => rfl
    | cons d rest' =>
      simp only [chunks3, List.map_cons, ih]
      rfl

/-- A nonempty list has at least one chunk. -/
theorem chunks3_ne_nil {α : Type} :
    ∀ l : List α, l ≠ [] → chunks3 l ≠ []
  | [], h => absurd rfl h
  | [_], _ => by simp [chunks3]
  | [_, _], _ => by simp [chunks3]
  | _ :: _ :: _ :: _, _ => by simp [chunks3]

/-- Unfolding `joinWithDelay` over a head chunk followed by more
chunks. -/
theorem joinWithDelay_cons (c : List Ev) (cs : List (List Ev)) (h : cs ≠ []) :
    joinWithDelay (c :: cs) = c ++ Ev.pacingDelay 1000 :: joinWithDelay cs := by
  cases cs with
  | nil => exact absurd rfl h
  | cons c' cs' => rfl

/-- The batch loop's event trace is exactly the per-chunk traces with
one 1000 ms delay between consecutive chunks and none after the last. -/
theorem extractBatchLoop_snd (req : BatchExtractionRequest) (envf : String → ProviderEnv) :
    ∀ items, (extractBatchLoop req envf items).2
      = joinWithDelay ((chunks3 items).map (fun c => (runChunk req envf c).2))
  | [] => rfl
  | [_] => rfl
  | [_, _] => rfl
  | [_, _, _] => rfl
  | a :: b :: c :: d :: rest => by
    have ih := extractBatchLoop_snd req envf (d :: rest)
    have hne : (chunks3 (d :: rest)).map
        (fun c => (runChunk req envf c).2) ≠ [] := by
      have := chunks3_ne_nil (d :: rest) (by simp)
      simpa using this
    have hstep : chunks3 (a :: b :: c :: d :: rest)
        = [a, b, c] :: chunks3 (d :: rest) := rfl
    rw [hstep, List.map_cons, joinWithDelay_cons _ _ hne, ← ih]
    simp [extractBatchLoop]

/-! ### Claims -/

/-- C1: for every batch of `N` (`1 ≤ N ≤ 10`) items, `extractDataBatch`
processes the items in consecutive chunks of size 3 (`chunkSizes` gives
`[3,3,1]` for 7), settles each chunk before the next starts, waits a
1000 ms pacing delay between chunks but not after the last one, and
returns exactly `N` result entries whose order and ids match the input
order (chunk results are assembled in dispatch order, independent of
completion order). -/
theorem extractBatch_chunks_order_pacing (req : BatchExtractionRequest)
    (envf : String → ProviderEnv)
    (h1 : 1 ≤ req.transcriptions.length) (h2 : req.transcriptions.length ≤ 10) :
    (extractDataBatch req envf).1.length = req.transcriptions.length ∧
    (extractDataBatch req envf).1.map BatchEntry.id
        = req.transcriptions.map BatchItem.id ∧
    (chunks3 req.transcriptions).flatten = req.transcriptions ∧
    (chunks3 req.transcriptions).map List.length
        = chunkSizes req.transcriptions.length ∧
    (extractDataBatch req envf).1
        = ((chunks3 req.transcriptions).map (fun c => (runChunk req envf c).1)).flatten ∧
    (extractDataBatch req envf).2
        = joinWithDelay ((chunks3 req.transcriptions).map (fun c => (runChunk req envf c).2)) := by
  refine ⟨?_, ?_, chunks3_flatten _, chunks3_map_length _, ?_, ?_⟩
  · rw [extractDataBatch, extractBatchLoop_fst]
    simp
  · rw [extractDataBatch, extractBatchLoop_fst]
    simp [batchItemRun]
  · rw [extractDataBatch, extractBatchLoop_fst]
    simp only [runChunk_fst]
    rw [← List.map_flatten, chunks3_flatten]
  · exact extractBatchLoop_snd req envf req.transcriptions

/-- Witness for C1: the seven-item batch is chunked `[3,3,1]`, keeps
input order, and paces between (not after) chunks. -/
theorem extractBatch_chunks_order_pacing_witness :
    (1 ≤ sevenReq.transcriptions.length ∧ sevenReq.transcriptions.length ≤ 10 ∧
      chunkSizes sevenReq.transcriptions.length = [3, 3, 1]) ∧
    ((extractDataBatch sevenReq sevenEnvf).1.length = sevenReq.transcriptions.length ∧
     (extractDataBatch sevenReq sevenEnvf).1.map BatchEntry.id
        = sevenReq.transcriptions.map BatchItem.id ∧
     (chunks3 sevenReq.transcriptions).flatten = sevenReq.transcriptions ∧
     (chunks3 sevenReq.transcriptions).map List.length
        = chunkSizes sevenReq.transcriptions.length ∧
     (extractDataBatch sevenReq sevenEnvf).1
        = ((chunks3 sevenReq.transcriptions).map
            (fun c => (runChunk sevenReq sevenEnvf c).1)).flatten ∧
     (extractDataBatch sevenReq sevenEnvf).2
        = joinWithDelay ((chunks3 sevenReq.transcriptions).map
            (fun c => (runChunk sevenReq sevenEnvf c).2))) :=
  ⟨by decide, extractBatch_chunks_order_pacing sevenReq sevenEnvf (by decide) (by decide)⟩

/-- C2: every item of a batch gets exactly one result entry, determined
by that item's own extraction alone; a failing extraction is converted
into a result entry whose `extractedData` carries the error message, so
one item's failure never removes the entries of the others. -/
theorem extractBatch_item_isolated (req : BatchExtractionRequest)
    (envf : String → ProviderEnv) :
    (extractDataBatch req envf).1.length = req.transcriptions.length ∧
    (∀ j : Nat, (extractDataBatch req envf).1[j]?
        = (req.transcriptions[j]?).map (fun it => (batchItemRun req envf it).1)) ∧
    (∀ (r : ExtractionRequest) (env : ProviderEnv),
        (extractData r env).1.success = false →
        ∃ m, (extractData r env).1.extractedData = [("error", Json.str m)]) := by
  refine ⟨?_, ?_, ?_⟩
  · rw [extractDataBatch, extractBatchLoop_fst]
    simp
  · intro j
    rw [extractDataBatch, extractBatchLoop_fst, List.getElem?_map]
  · intro r env h
    cases hb : buildExtractionPrompt r.transcription r.extractionType r.customSchema with
    | error m => exact ⟨m, by simp [extractData, hb, catchResult]⟩
    | ok p =>
      cases hc : env.call with
      | error m => exact ⟨m, by simp [extractData, hb, hc, catchResult]⟩
      | ok oc =>
        cases oc with
        | none =>
          exact ⟨"No response from extraction model",
            by simp [extractData, hb, hc, catchResult]⟩
        | some s =>
          cases hp : env.parse s with
          | error m => exact ⟨m, by simp [extractData, hb, hc, hp, catchResult]⟩
          | ok data => simp [extractData, hb, hc, hp] at h

/-- Witness for C2: in the seven-item batch where only item `t4` fails,
all seven entries are present in order, items 1,2,3,5,6,7 succeed, and
the `t4` entry carries the thrown message. -/
theorem extractBatch_item_isolated_witness :
    ((extractData item4Req failEnv).1.success = false) ∧
    (∃ m, (extractData item4Req failEnv).1.extractedData
        = [("error", Json.str m)]) ∧
    ((extractDataBatch sevenReq sevenEnvf).1.map
        (fun e => (e.id, e.result.success))
      = [("t1", true), ("t2", true), ("t3", true), ("t4", false),
         ("t5", true), ("t6", true), ("t7", true)]) :=
  ⟨by decide,
   (extractBatch_item_isolated sevenReq sevenEnvf).2.2 item4Req failEnv (by decide),
   by decide⟩

/-- C10: `extractData` never rejects: whatever the environment does
(prompt-builder throw, thrown provider call, empty response, unparsable
output), it returns a `catchResult` — success `false`, confidence `0`,
the extraction type echoed, the error message embedded in
`extractedData` — so the per-item `catch` in `extractDataBatch` is
unreachable and the `error` field of a batch entry is never
populated. -/
theorem extractData_never_rejects (req : ExtractionRequest) (env : ProviderEnv)
    (breq : BatchExtractionRequest) (envf : String → ProviderEnv) :
    (∀ m, buildExtractionPrompt req.transcription req.extractionType req.customSchema
          = .error m →
        extractData req env = (catchResult req m env.elapsedMs, [])) ∧
    (∀ p m, buildExtractionPrompt req.transcription req.extractionType req.customSchema
          = .ok p → env.call = .error m →
        extractData req env = (catchResult req m env.elapsedMs, [.remoteCall p])) ∧
    (∀ p, buildExtractionPrompt req.transcription req.extractionType req.customSchema
          = .ok p → env.call = .ok none →
        extractData req env
          = (catchResult req "No response from extraction model" env.elapsedMs,
             [.remoteCall p])) ∧
    (∀ p s m, buildExtractionPrompt req.transcription req.extractionType req.customSchema
          = .ok p → env.call = .ok (some s) → env.parse s = .error m →
        extractData req env = (catchResult req m env.elapsedMs, [.remoteCall p])) ∧
    (∀ m pt, (catchResult req m pt).success = false ∧
        (catchResult req m pt).confidence = Json.num 0 ∧
        (catchResult req m pt).extractionType = req.extractionType ∧
        (catchResult req m pt).extractedData = [("error", Json.str m)]) ∧
    (extractData req env).1.extractionType = req.extractionType ∧
    (∀ e ∈ (extractDataBatch breq envf).1, e.error = none) := by
  refine ⟨?_, ?_, ?_, ?_, ?_, ?_, ?_⟩
  · intro m hb; simp [extractData, hb]
  · intro p m hb hc; simp [extractData, hb, hc]
  · intro p hb hc; simp [extractData, hb, hc]
  · intro p s m hb hc hp; simp [extractData, hb, hc, hp]
  · intro m pt; exact ⟨rfl, rfl, rfl, rfl⟩
  · cases hb : buildExtractionPrompt req.transcription req.extractionType req.customSchema with
    | error m => simp [extractData, hb, catchResult]
    | ok p =>
      cases hc : env.call with
      | error m => simp [extractData, hb, hc, catchResult]
      | ok oc =>
        cases oc with
        | none => simp [extractData, hb, hc, catchResult]
        | some s =>
          cases hp : env.parse s with
          | error m => simp [extractData, hb, hc, hp, catchResult]
          | ok data => simp [extractData, hb, hc, hp]
  · intro e he
    rw [extractDataBatch, extractBatchLoop_fst] at he
    obtain ⟨it, _, rfl⟩ := List.mem_map.1 he
    rfl

/-- Witness for C10: with a throwing provider, `extractData` returns
the catch-branch result (no rejection), and no entry of the seven-item
batch has its `error` field populated. -/
theorem extractData_never_rejects_witness :
    (buildExtractionPrompt "coolant flush needed" .repair_details none).isOk = true ∧
    ((extractData item4Req failEnv).1
        = catchResult item4Req "provider exploded" 2) ∧
    ((extractDataBatch sevenReq sevenEnvf).1.map BatchEntry.error
        = [none, none, none, none, none, none, none]) :=
  ⟨by decide,
   by
    have h := (extractData_never_rejects item4Req failEnv sevenReq sevenEnvf).2.1
    have h2 := h _ "provider exploded" rfl rfl
    simpa using congrArg Prod.fst h2,
   by decide⟩

/-- C3 counterexample: a `custom` extraction whose schema has an empty
field list is not rejected — the prompt builds, the remote call happens
and the extraction succeeds, contradicting the claim that an empty
field list fails with the missing-schema error before any remote
call. -/
theorem custom_empty_fields_accepted :
    (extractData emptyFieldsReq okEnv).1.success = true ∧
    (extractData emptyFieldsReq okEnv).2 ≠ [] := by
  constructor
  · rfl
  · intro h
    exact absurd (congrArg List.length h) (by decide)

/-- C3 (amended): a `custom` extraction without a `customSchema` is
rejected with `Custom schema is required for custom extraction type`
before any remote call is made (empty trace), for every provider
environment; a custom schema with an empty field list is accepted. -/
theorem custom_without_schema_fails_before_call
    (transcription userId : String) (env : ProviderEnv) :
    extractData { transcription := transcription
                  extractionType := .custom
                  customSchema := none
                  userId := userId } env
      = (catchResult { transcription := transcription
                       extractionType := .custom
                       customSchema := none
                       userId := userId }
          "Custom schema is required for custom extraction type" env.elapsedMs,
         []) := rfl

/-- C4 counterexample: the comprehensive schema of `GET /schemas` does
list exactly the six claimed categories, but the field names listed
under them number 55, not 47. -/
theorem schemas_listed_fields_not_47 :
    comprehensiveCategories.map Prod.fst
      = ["customer_information", "vehicle_information", "damage_assessment",
         "repair_work", "parts_operations", "recommendations"] ∧
    comprehensiveListedFieldCount = 55 ∧
    comprehensiveListedFieldCount ≠ 47 := by decide

/-- C4 (amended): the comprehensive schema lists exactly the six
categories {customer_information, vehicle_information,
damage_assessment, repair_work, parts_operations, recommendations};
its hard-coded `total_fields` attribute says 47 while the field names
actually listed under the categories number 55. -/
theorem schemas_catalogue_counts :
    comprehensiveCategories.map Prod.fst
      = ["customer_information", "vehicle_information", "damage_assessment",
         "repair_work", "parts_operations", "recommendations"] ∧
    comprehensiveListedFieldCount = 55 ∧
    comprehensiveTotalFields = 47 := by decide

/-- C5 counterexample: when the provider supplies `confidence: 0`, the
returned confidence is 0.8, not the supplied 0 — `|| 0.8` swallows the
falsy value, contradicting "when the provider supplies a confidence
value, that value is returned". -/
theorem confidence_zero_not_returned :
    ((extractData confReq confZeroEnv).1.extractedData.get "confidence"
        = some (Json.num 0)) ∧
    (extractData confReq confZeroEnv).1.confidence = Json.num (4/5) ∧
    Json.num (4/5) ≠ Json.num 0 := by
  refine ⟨rfl, ?_, ?_⟩
  · show jsOr (some (Json.num 0)) (Json.num (4/5)) = Json.num (4/5)
    simp [jsOr, Json.truthy]
  · simp only [ne_eq, Json.num.injEq]
    norm_num

/-- C5 (amended): on a successful extraction, the returned confidence
is 0.8 when the parsed output has no `confidence` field, and also when
it is the (falsy) number 0; a nonzero numeric confidence is returned as
supplied. -/
theorem confidence_default_amended (req : ExtractionRequest) (env : ProviderEnv)
    (p s : String) (data : JsonObj)
    (hb : buildExtractionPrompt req.transcription req.extractionType req.customSchema
        = .ok p)
    (hc : env.call = .ok (some s)) (hp : env.parse s = .ok data) :
    (data.get "confidence" = none →
        (extractData req env).1.confidence = Json.num (4/5)) ∧
    (∀ q : ℚ, q ≠ 0 → data.get "confidence" = some (Json.num q) →
        (extractData req env).1.confidence = Json.num q) ∧
    (data.get "confidence" = some (Json.num 0) →
        (extractData req env).1.confidence = Json.num (4/5)) := by
  refine ⟨?_, ?_, ?_⟩
  · intro hg; simp [extractData, hb, hc, hp, jsOr, hg]
  · intro q hq hg; simp [extractData, hb, hc, hp, jsOr, hg, Json.truthy, hq]
  · intro hg; simp [extractData, hb, hc, hp, jsOr, hg, Json.truthy]

/-- Witness for the amended C5: with `okEnv` (supplied confidence 0.9)
the returned confidence is 0.9, and with a missing confidence field it
is 0.8. -/
theorem confidence_default_amended_witness :
    (okEnv.call = .ok (some "response body") ∧
     okEnv.parse "response body"
        = .ok [("confidence", Json.num (9/10)), ("diagnosis", Json.str "worn pads")] ∧
     ((9 : ℚ)/10 ≠ 0)) ∧
    (extractData confReq okEnv).1.confidence = Json.num (9/10) :=
  ⟨⟨rfl, rfl, by norm_num⟩,
   (confidence_default_amended confReq okEnv _ "response body" _ rfl rfl rfl).2.1
     (9/10) (by norm_num) rfl⟩

/-- C6: an upload whose mime type is outside the allow-list, or whose
size exceeds the configured ceiling (50 MB by default), is answered
with HTTP 400 and the remote transcription call is never reached. -/
theorem upload_rejected_before_transcription (mime : String) (size : Nat)
    (envMax : Option Nat)
    (h : ¬ allowedMimeTypes.contains mime ∨ maxFileSize envMax < size) :
    handleUpload mime size envMax = (400, false) := by
  by_cases hm : allowedMimeTypes.contains mime
  · have hs : maxFileSize envMax < size := by
      rcases h with h | h
      · exact absurd hm h
      · exact h
    have hm' : mime ∈ allowedMimeTypes := by simpa using hm
    have hmc : multerCheck mime size (maxFileSize envMax) = some "File too large" := by
      simp [multerCheck, hm', hs]
    simp only [handleUpload, hmc]
    decide
  · have hm' : mime ∉ allowedMimeTypes := by simpa using hm
    have hmc : multerCheck mime size (maxFileSize envMax)
        = some "Invalid file type. Only audio files are allowed." := by
      simp [multerCheck, hm']
    simp only [handleUpload, hmc]
    decide

/-- Witness for C6: a `text/plain` upload of 10 bytes is rejected with
400 and no transcription is attempted. -/
theorem upload_rejected_before_transcription_witness :
    (¬ allowedMimeTypes.contains "text/plain" ∨ maxFileSize none < 10) ∧
    handleUpload "text/plain" 10 none = (400, false) :=
  ⟨Or.inl (by decide),
   upload_rejected_before_transcription "text/plain" 10 none (Or.inl (by decide))⟩

/-- C7: `POST /api/extraction/batch` rejects a batch of 0 or more than
10 transcriptions with HTTP 400 before any extraction is dispatched (no
results, no events, `extractDataBatch` never invoked); a batch of 1 to
10 transcriptions passing the remaining field checks is accepted and
dispatched. -/
theorem batch_size_validated (envf : String → ProviderEnv) (userId : String)
    (b : BatchBody) :
    ((b.transcriptions.length = 0 ∨ 10 < b.transcriptions.length) →
        handleBatch envf userId b
          = { status := 400, results := [], events := [], dispatched := false }) ∧
    ((1 ≤ b.transcriptions.length ∧ b.transcriptions.length ≤ 10 ∧
        b.transcriptions.all (fun it => 10 ≤ it.text.length) = true ∧
        (∀ s, b.extractionType = some s → (ExtractionType.ofStr s).isSome)) →
        (handleBatch envf userId b).status = 200 ∧
        (handleBatch envf userId b).dispatched = true) := by
  constructor
  · intro h
    have hcond : ¬ (b.transcriptions.all (fun it => 10 ≤ it.text.length)
        ∧ 1 ≤ b.transcriptions.length ∧ b.transcriptions.length ≤ 10) := by
      rintro ⟨-, hlo, hhi⟩
      rcases h with h | h <;> omega
    have hp : parseBatchBody b = .error "Invalid batch extraction request" := by
      rw [parseBatchBody, if_neg hcond]
    simp [handleBatch, hp]
  · rintro ⟨h1, h2, h3, h4⟩
    have hcond : (b.transcriptions.all (fun it => 10 ≤ it.text.length)
        ∧ 1 ≤ b.transcriptions.length ∧ b.transcriptions.length ≤ 10) :=
      ⟨h3, h1, h2⟩
    cases hty : b.extractionType with
    | none =>
      have hp : parseBatchBody b
          = .ok (b.transcriptions, .repair_details, b.customSchema) := by
        rw [parseBatchBody, if_pos hcond, hty]
      simp [handleBatch, hp]
    | some s =>
      obtain ⟨ty, hofs⟩ := Option.isSome_iff_exists.1 (h4 s hty)
      have hp : parseBatchBody b = .ok (b.transcriptions, ty, b.customSchema) := by
        rw [parseBatchBody, if_pos hcond, hty]
        simp [hofs]
      simp [handleBatch, hp]

/-- Witness for C7: an eleven-item batch is rejected with 400 and
nothing is dispatched. -/
theorem batch_size_validated_witness :
    (elevenBody.transcriptions.length = 0 ∨ 10 < elevenBody.transcriptions.length) ∧
    handleBatch (fun _ => okEnv) "test-user" elevenBody
      = { status := 400, results := [], events := [], dispatched := false } :=
  ⟨Or.inr (by decide),
   (batch_size_validated (fun _ => okEnv) "test-user" elevenBody).1
     (Or.inr (by decide))⟩

/-- C8: registering an email already present in the user store
(case-sensitive exact match) fails with the duplicate-user response and
leaves the store unchanged, and every register call preserves the
email-uniqueness invariant of the store. -/
theorem register_duplicate_and_unique (env : AuthEnv) (users : List User)
    (inp : RegisterInput) :
    ((registerValid env.isEmail inp = true ∧ ∃ u ∈ users, u.email = inp.email) →
        register env users inp = (.duplicateUser, users)) ∧
    (uniqueEmails users → uniqueEmails (register env users inp).2) := by
  constructor
  · rintro ⟨hv, u, hu, he⟩
    have hfind : (users.find? (fun u => u.email == inp.email)).isSome := by
      rw [List.find?_isSome]
      exact ⟨u, hu, by simpa using he⟩
    obtain ⟨u', hu'⟩ := Option.isSome_iff_exists.1 hfind
    simp [register, hv, hu']
  · intro hun
    by_cases hv : registerValid env.isEmail inp
    · cases hfind : users.find? (fun u => u.email == inp.email) with
      | some u => simpa [register, hv, hfind] using hun
      | none =>
        have hall : ∀ u ∈ users, u.email ≠ inp.email := by
          intro u hu
          have := List.find?_eq_none.1 hfind u hu
          simpa using this
        have hnew : uniqueEmails (users ++
            [{ id := env.freshId, email := inp.email,
               password := env.hash inp.password, name := inp.name,
               createdAt := env.now }]) := by
          rw [uniqueEmails, List.pairwise_append]
          refine ⟨hun, by simp, ?_⟩
          intro a ha b hb
          simp only [List.mem_singleton] at hb
          subst hb
          exact hall a ha
        cases hjs : env.jwtSecret with
        | none => simpa [register, hv, hfind, hjs] using hnew
        | some sign => simpa [register, hv, hfind, hjs] using hnew
    · simpa [register, hv] using hun

/-- Witness for C8: re-registering `ann@example.com` over a store that
already holds it yields the duplicate-user outcome with the store
unchanged. -/
theorem register_duplicate_and_unique_witness :
    (registerValid authEnvW.isEmail dupInput = true ∧
      ∃ u ∈ [existingUser], u.email = dupInput.email) ∧
    register authEnvW [existingUser] dupInput
      = (.duplicateUser, [existingUser]) :=
  ⟨⟨by decide, existingUser, by simp, rfl⟩,
   (register_duplicate_and_unique authEnvW [existingUser] dupInput).1
     ⟨by decide, existingUser, by simp, rfl⟩⟩

/-- C9: under the default configuration (5 requests per 60-second
window per IP), six requests inside one window from the same IP yield
five passes and then a block (HTTP 429) on the sixth, and a request
after the window has elapsed passes again. -/
theorem rate_limit_sixth_blocked_then_reset
    (t0 t1 t2 t3 t4 t5 t6 t7 : Nat)
    (h1 : t1 < t0 + 60000) (h2 : t2 < t0 + 60000) (h3 : t3 < t0 + 60000)
    (h4 : t4 < t0 + 60000) (h5 : t5 < t0 + 60000) (h6 : t6 < t0 + 60000)
    (h7 : t0 + 60000 ≤ t7) :
    limiterRun (rateLimitWindowMs none) (rateLimitMax none)
        { windowStart := t0, count := 0 } [t1, t2, t3, t4, t5, t6, t7]
      = ([true, true, true, true, true, false, true],
         { windowStart := t7, count := 1 }) := by
  have hw : rateLimitWindowMs none = 60000 := rfl
  have hm : rateLimitMax none = 5 := rfl
  rw [hw, hm]
  have s1 : limiterStep 60000 5 t1 { windowStart := t0, count := 0 }
      = (true, { windowStart := t0, count := 1 }) := by
    unfold limiterStep
    rw [if_neg (by omega : ¬ t0 + 60000 ≤ t1)]
    rfl
  have s2 : limiterStep 60000 5 t2 { windowStart := t0, count := 1 }
      = (true, { windowStart := t0, count := 2 }) := by
    unfold limiterStep
    rw [if_neg (by omega : ¬ t0 + 60000 ≤ t2)]
    rfl
  have s3 : limiterStep 60000 5 t3 { windowStart := t0, count := 2 }
      = (true, { windowStart := t0, count := 3 }) := by
    unfold limiterStep
    rw [if_neg (by omega : ¬ t0 + 60000 ≤ t3)]
    rfl
  have s4 : limiterStep 60000 5 t4 { windowStart := t0, count := 3 }
      = (true, { windowStart := t0, count := 4 }) := by
    unfold limiterStep
    rw [if_neg (by omega : ¬ t0 + 60000 ≤ t4)]
    rfl
  have s5 : limiterStep 60000 5 t5 { windowStart := t0, count := 4 }
      = (true, { windowStart := t0, count := 5 }) := by
    unfold limiterStep
    rw [if_neg (by omega : ¬ t0 + 60000 ≤ t5)]
    rfl
  have s6 : limiterStep 60000 5 t6 { windowStart := t0, count := 5 }
      = (false, { windowStart := t0, count := 6 }) := by
    unfold limiterStep
    rw [if_neg (by omega : ¬ t0 + 60000 ≤ t6)]
    rfl
  have s7 : limiterStep 60000 5 t7 { windowStart := t0, count := 6 }
      = (true, { windowStart := t7, count := 1 }) := by
    unfold limiterStep
    rw [if_pos (by omega : t0 + 60000 ≤ t7)]
    rfl
  simp [limiterRun, s1, s2, s3, s4, s5, s6, s7]

/-- Witness for C9: requests at 1s–6s and then at 60s, from a fresh
window opened at time 0. -/
theorem rate_limit_sixth_blocked_then_reset_witness :
    ((1000 : Nat) < 0 + 60000 ∧ (2000 : Nat) < 0 + 60000 ∧
     (3000 : Nat) < 0 + 60000 ∧ (4000 : Nat) < 0 + 60000 ∧
     (5000 : Nat) < 0 + 60000 ∧ (6000 : Nat) < 0 + 60000 ∧
     (0 : Nat) + 60000 ≤ 60000) ∧
    limiterRun (rateLimitWindowMs none) (rateLimitMax none)
        { windowStart := 0, count := 0 } [1000, 2000, 3000, 4000, 5000, 6000, 60000]
      = ([true, true, true, true, true, false, true],
         { windowStart := 60000, count := 1 }) :=
  ⟨by decide,
   rate_limit_sixth_blocked_then_reset 0 1000 2000 3000 4000 5000 6000 60000
     (by decide) (by decide) (by decide) (by decide) (by decide) (by decide)
     (by decide)⟩
